import Mathlib

/-!
A shallow embedding of
`client/network/src/protocol/generic_proto/handler/notif_out.rs`:
the libp2p protocols-handler for the outbound notification substream of a
single gossiping protocol (`NotifsOutHandler`), with proofs about its state
machine, its event queue, its keep-alive policy and its poll loop.

Modelling conventions:
* `Duration` and `Instant` are natural numbers of seconds; handshake
  payloads and protocol names (`Vec<u8>`, `Cow<[u8]>`) are lists of bytes.
* The outcomes of the asynchronous sink operations on the substream
  (`Sink::poll_flush` in state `Open`, `Sink::poll_close` in state
  `DisabledOpen`) are supplied by the environment as an explicit oracle
  argument (`SinkPoll`) to `poll`; at most one of the two is consulted in
  any single `poll` call, so a single oracle value suffices.
* The source mutates `self`; here every method returns the new handler
  value (together with the poll result for `poll`).
-/

namespace NotifOut

/-- Byte strings (`Vec<u8>` / `Cow<'static, [u8]>`). -/
abbrev Bytes := List Nat

/-- `OPEN_TIMEOUT` (notif_out.rs line 41): maximum duration, in seconds, to
open a substream and receive the handshake message. -/
def OPEN_TIMEOUT : Nat := 10

/-- `INITIAL_KEEPALIVE_TIME` (line 45), in seconds: after successfully
establishing a connection, keep it open at least this long so that the rest
of the code has a chance to ask for substreams. -/
def INITIAL_KEEPALIVE_TIME : Nat := 5

/-- Modelled from the spec: `NotificationsOutSubstream` (defined in the
upgrade module, which is not among the sources) is the writable substream
handle returned by a successful negotiation; the spec only requires that it
supports enqueueing outbound payloads, flushing and closing.  Only the
outbound buffer is modelled; flush and close outcomes come from the
environment via `SinkPoll`. -/
structure NotificationsOutSubstream where
  buffered : List Bytes
  deriving DecidableEq

/-- `NotificationsOutSubstream::push_message`: queue a payload on the
substream's outbound buffer (fire and forget). -/
def NotificationsOutSubstream.push_message
    (s : NotificationsOutSubstream) (msg : Bytes) : NotificationsOutSubstream :=
  { s with buffered := s.buffered ++ [msg] }

/-- `State` (lines 119-148): our relationship with the node we are connected
to.  The doc comment on `DisabledOpen` stresses that the handler must never
switch from `DisabledOpen` back to `Open` while keeping the same substream,
and the one on `Poisoned` says it "shouldn't be found in the wild". -/
inductive State
  | Disabled
  | DisabledOpen (sub : NotificationsOutSubstream)
  | DisabledOpening
  | Opening
  | Refused
  | Open (sub : NotificationsOutSubstream)
  | Poisoned
  deriving DecidableEq

/-- `NotifsOutHandlerIn` (lines 152-164): events received by the handler. -/
inductive NotifsOutHandlerIn
  | Enable
  | Disable
  | Send (msg : Bytes)
  deriving DecidableEq

/-- `NotifsOutHandlerOut` (lines 168-182): events emitted by the handler. -/
inductive NotifsOutHandlerOut
  | Open (handshake : Bytes)
  | Closed
  | Refused
  deriving DecidableEq

/-- `SubstreamProtocol::new(NotificationsOut::new(name)).with_timeout(t)`:
a request to negotiate an outbound substream for a protocol name, with a
timeout in seconds. -/
structure SubstreamProtocolReq where
  proto_name : Bytes
  timeout : Nat
  deriving DecidableEq

/-- `ProtocolsHandlerEvent<NotificationsOut, (), NotifsOutHandlerOut, Void>`:
what the handler hands to the connection task — either a request to
negotiate a new outbound substream, or a custom event for the controller. -/
inductive ProtocolsHandlerEvent
  | OutboundSubstreamRequest (protocol : SubstreamProtocolReq)
  | Custom (ev : NotifsOutHandlerOut)
  deriving DecidableEq

/-- `NotifsOutHandler` (lines 101-116): protocol name, relationship state,
connection-establishment instant, and the queue of events to send outside
(appended at the back, consumed from the front). -/
structure NotifsOutHandler where
  proto_name : Bytes
  state : State
  when_connection_open : Nat
  events_queue : List ProtocolsHandlerEvent
  deriving DecidableEq

/-- `IntoProtocolsHandler::into_handler` (lines 83-90): the factory produces
a handler in the `Disabled` state with an empty event queue. -/
def into_handler (proto_name : Bytes) (now : Nat) : NotifsOutHandler :=
  { proto_name := proto_name
    state := State.Disabled
    when_connection_open := now
    events_queue := [] }

/-- `NotifsOutHandler::is_enabled` (lines 186-196). -/
def is_enabled (h : NotifsOutHandler) : Bool :=
  match h.state with
  | State.Disabled => false
  | State.DisabledOpening => false
  | State.DisabledOpen _ => false
  | State.Opening => true
  | State.Refused => true
  | State.Open _ => true
  | State.Poisoned => false

/-- `NotifsOutHandler::is_open` (lines 199-209). -/
def is_open (h : NotifsOutHandler) : Bool :=
  match h.state with
  | State.Disabled => false
  | State.DisabledOpening => false
  | State.DisabledOpen _ => true
  | State.Opening => false
  | State.Refused => false
  | State.Open _ => true
  | State.Poisoned => false

/-- `inject_fully_negotiated_outbound` (lines 239-259), the
negotiation-success callback carrying `(handshake_msg, sub)`.  The source
first installs `State::Poisoned` via `mem::replace` and then matches on the
old state; the arms that merely log an error never write a state back, so
in those arms the handler is left in `Poisoned`. -/
def inject_fully_negotiated_outbound (h : NotifsOutHandler)
    (handshake_msg : Bytes) (sub : NotificationsOutSubstream) : NotifsOutHandler :=
  match h.state with
  | State.Opening =>
      { h with
        events_queue :=
          h.events_queue ++
            [ProtocolsHandlerEvent.Custom (NotifsOutHandlerOut.Open handshake_msg)]
        state := State.Open sub }
  | State.DisabledOpening => { h with state := State.DisabledOpen sub }
  | State.Disabled | State.Refused | State.Open _ | State.DisabledOpen _ =>
      { h with state := State.Poisoned }
  | State.Poisoned => { h with state := State.Poisoned }

/-- `inject_event` (lines 261-296), processing an `Enable`, `Disable` or
`Send` command.  As in `inject_fully_negotiated_outbound`, the `Enable` and
`Disable` branches take the old state out via `mem::replace` with
`State::Poisoned`, and the log-only arms never restore it.  `Send` uses no
replacement: it pushes on the substream when `Open` and is a no-op
otherwise. -/
def inject_event (h : NotifsOutHandler) (message : NotifsOutHandlerIn) : NotifsOutHandler :=
  match message with
  | NotifsOutHandlerIn.Enable =>
      match h.state with
      | State.Disabled =>
          { h with
            events_queue :=
              h.events_queue ++
                [ProtocolsHandlerEvent.OutboundSubstreamRequest
                  { proto_name := h.proto_name, timeout := OPEN_TIMEOUT }]
            state := State.Opening }
      | State.DisabledOpening => { h with state := State.Opening }
      | State.DisabledOpen sub => { h with state := State.Open sub }
      | State.Opening | State.Refused | State.Open _ =>
          { h with state := State.Poisoned }
      | State.Poisoned => { h with state := State.Poisoned }
  | NotifsOutHandlerIn.Disable =>
      match h.state with
      | State.Disabled | State.DisabledOpening =>
          { h with state := State.Poisoned }
      | State.DisabledOpen sub => { h with state := State.Open sub }
      | State.Opening => { h with state := State.DisabledOpening }
      | State.Refused => { h with state := State.Disabled }
      | State.Open sub => { h with state := State.DisabledOpen sub }
      | State.Poisoned => { h with state := State.Poisoned }
  | NotifsOutHandlerIn.Send msg =>
      match h.state with
      | State.Open sub => { h with state := State.Open (sub.push_message msg) }
      | _ => h

/-- `inject_dial_upgrade_error` (lines 298-311): negotiation failure or
timeout.  Again `mem::replace` with `State::Poisoned` on entry, never
restored in the log-only arms — including the silent `State::Disabled => {}`
arm. -/
def inject_dial_upgrade_error (h : NotifsOutHandler) : NotifsOutHandler :=
  match h.state with
  | State.Disabled => { h with state := State.Poisoned }
  | State.DisabledOpen _ | State.Refused | State.Open _ =>
      { h with state := State.Poisoned }
  | State.Opening =>
      { h with
        events_queue :=
          h.events_queue ++ [ProtocolsHandlerEvent.Custom NotifsOutHandlerOut.Refused]
        state := State.Refused }
  | State.DisabledOpening => { h with state := State.Disabled }
  | State.Poisoned => { h with state := State.Poisoned }

/-- `KeepAlive` hint from the libp2p swarm layer: keep the connection until
a deadline, indefinitely, or not at all. -/
inductive KeepAlive
  | Until (deadline : Nat)
  | Yes
  | No
  deriving DecidableEq

/-- `connection_keep_alive` (lines 313-320). -/
def connection_keep_alive (h : NotifsOutHandler) : KeepAlive :=
  match h.state with
  | State.Disabled | State.DisabledOpen _ | State.DisabledOpening =>
      KeepAlive.Until (h.when_connection_open + INITIAL_KEEPALIVE_TIME)
  | State.Opening | State.Open _ => KeepAlive.Yes
  | State.Refused | State.Poisoned => KeepAlive.No

/-- Environment oracle for the sink operation a `poll` call may perform:
`Sink::poll_flush` when `Open`, `Sink::poll_close` when `DisabledOpen`.
`Pending` means the operation would block; `ReadyOk` and `ReadyErr` are the
completed outcomes. -/
inductive SinkPoll
  | Pending
  | ReadyOk
  | ReadyErr
  deriving DecidableEq

/-- `Poll<T>` from the futures task model: either nothing ready yet, or a
ready value. -/
inductive Poll (α : Type)
  | Pending
  | Ready (a : α)
  deriving DecidableEq

/-- `poll` (lines 322-359): first drain the events queue (`remove(0)` pops
the head); only with an empty queue do the liveness checks run — flushing
the substream in `Open` (a flush failure re-opens: state `Opening`, a fresh
negotiation request queued, `Closed` returned), closing it in
`DisabledOpen` (completion, ok or error, yields `Disabled` and `Closed`). -/
def poll (h : NotifsOutHandler) (cx : SinkPoll) :
    NotifsOutHandler × Poll ProtocolsHandlerEvent :=
  match h.events_queue with
  | event :: rest => ({ h with events_queue := rest }, Poll.Ready event)
  | [] =>
      match h.state with
      | State.Open _ =>
          match cx with
          | SinkPoll.Pending | SinkPoll.ReadyOk => (h, Poll.Pending)
          | SinkPoll.ReadyErr =>
              ({ h with
                 state := State.Opening
                 events_queue :=
                   h.events_queue ++
                     [ProtocolsHandlerEvent.OutboundSubstreamRequest
                       { proto_name := h.proto_name, timeout := OPEN_TIMEOUT }] },
               Poll.Ready (ProtocolsHandlerEvent.Custom NotifsOutHandlerOut.Closed))
      | State.DisabledOpen _ =>
          match cx with
          | SinkPoll.Pending => (h, Poll.Pending)
          | SinkPoll.ReadyOk | SinkPoll.ReadyErr =>
              ({ h with state := State.Disabled },
               Poll.Ready (ProtocolsHandlerEvent.Custom NotifsOutHandlerOut.Closed))
      | _ => (h, Poll.Pending)

/-- Repeatedly `poll` (with a fixed sink oracle), collecting the events
returned `Ready`, stopping at the first `Pending` or after `k` calls. -/
def pollList (cx : SinkPoll) : Nat → NotifsOutHandler → List ProtocolsHandlerEvent
  | 0, _ => []
  | Nat.succ k, h =>
      match poll h cx with
      | (h2, Poll.Ready e) => e :: pollList cx k h2
      | (_, Poll.Pending) => []

/-- Whether a queued event is an outbound-substream negotiation request. -/
def isRequest : ProtocolsHandlerEvent → Bool
  | ProtocolsHandlerEvent.OutboundSubstreamRequest _ => true
  | ProtocolsHandlerEvent.Custom _ => false

/-- Number of negotiation requests in an event list. -/
def reqCount : List ProtocolsHandlerEvent → Nat
  | [] => 0
  | e :: rest => (if isRequest e then 1 else 0) + reqCount rest

/-- Number of negotiation requests delivered by a poll result. -/
def deliveredReq : Poll ProtocolsHandlerEvent → Nat
  | Poll.Pending => 0
  | Poll.Ready e => reqCount [e]

/-- Total negotiation requests accounted for after one `poll` call: those
still queued plus the one delivered, if any. -/
def pollReqTotal (h : NotifsOutHandler) (cx : SinkPoll) : Nat :=
  reqCount (poll h cx).1.events_queue + deliveredReq (poll h cx).2

/-- C1: the claim says every protocol-misuse input (Enable in Opening,
Refused or Open; Disable in Disabled or DisabledOpening; a negotiation
outcome in a state where none was in flight) leaves the state, `is_enabled`
and `is_open` unchanged.  The code refutes it: no output event is enqueued,
but every such arm leaves the handler in the `Poisoned` placeholder
installed by `mem::replace`, so `is_enabled` flips from true to false for
Enable-while-Opening. -/
theorem c1_misuse_poisons_state (pn hs : Bytes) (t : Nat)
    (q : List ProtocolsHandlerEvent) (sub : NotificationsOutSubstream) :
    (inject_event ⟨pn, State.Opening, t, q⟩ NotifsOutHandlerIn.Enable =
       ⟨pn, State.Poisoned, t, q⟩) ∧
    (inject_event ⟨pn, State.Refused, t, q⟩ NotifsOutHandlerIn.Enable =
       ⟨pn, State.Poisoned, t, q⟩) ∧
    (inject_event ⟨pn, State.Open sub, t, q⟩ NotifsOutHandlerIn.Enable =
       ⟨pn, State.Poisoned, t, q⟩) ∧
    (inject_event ⟨pn, State.Disabled, t, q⟩ NotifsOutHandlerIn.Disable =
       ⟨pn, State.Poisoned, t, q⟩) ∧
    (inject_event ⟨pn, State.DisabledOpening, t, q⟩ NotifsOutHandlerIn.Disable =
       ⟨pn, State.Poisoned, t, q⟩) ∧
    (inject_fully_negotiated_outbound ⟨pn, State.Refused, t, q⟩ hs sub =
       ⟨pn, State.Poisoned, t, q⟩) ∧
    (inject_dial_upgrade_error ⟨pn, State.Refused, t, q⟩ =
       ⟨pn, State.Poisoned, t, q⟩) ∧
    is_enabled ⟨pn, State.Opening, t, q⟩ = true ∧
    is_enabled ⟨pn, State.Poisoned, t, q⟩ = false :=
  ⟨rfl, rfl, rfl, rfl, rfl, rfl, rfl, rfl, rfl⟩

/-- C2: Disable maps Opening to DisabledOpening, Refused to Disabled and
Open to DisabledOpen (same substream), enqueueing nothing — as claimed.
But on DisabledOpen the state does NOT stay put: the code moves the same
substream back to `Open`, the very transition the `State` doc comment
forbids, refuting the claim's last part. -/
theorem c2_disable_on_disabledOpen_reopens (pn : Bytes) (t : Nat)
    (q : List ProtocolsHandlerEvent) (sub : NotificationsOutSubstream) :
    (inject_event ⟨pn, State.Opening, t, q⟩ NotifsOutHandlerIn.Disable =
       ⟨pn, State.DisabledOpening, t, q⟩) ∧
    (inject_event ⟨pn, State.Refused, t, q⟩ NotifsOutHandlerIn.Disable =
       ⟨pn, State.Disabled, t, q⟩) ∧
    (inject_event ⟨pn, State.Open sub, t, q⟩ NotifsOutHandlerIn.Disable =
       ⟨pn, State.DisabledOpen sub, t, q⟩) ∧
    (inject_event ⟨pn, State.DisabledOpen sub, t, q⟩ NotifsOutHandlerIn.Disable =
       ⟨pn, State.Open sub, t, q⟩) :=
  ⟨rfl, rfl, rfl, rfl⟩

/-- C3: a negotiation success `(hs, sub)` in Opening yields state
`Open sub` with exactly one `Open {handshake := hs}` event appended; in
DisabledOpening it yields `DisabledOpen sub` with no event, after which
`is_open` is true and `is_enabled` is false. -/
theorem c3_negotiation_success_transitions (pn hs : Bytes) (t : Nat)
    (q : List ProtocolsHandlerEvent) (sub : NotificationsOutSubstream) :
    (inject_fully_negotiated_outbound ⟨pn, State.Opening, t, q⟩ hs sub =
       ⟨pn, State.Open sub, t,
        q ++ [ProtocolsHandlerEvent.Custom (NotifsOutHandlerOut.Open hs)]⟩) ∧
    (inject_fully_negotiated_outbound ⟨pn, State.DisabledOpening, t, q⟩ hs sub =
       ⟨pn, State.DisabledOpen sub, t, q⟩) ∧
    is_open (inject_fully_negotiated_outbound ⟨pn, State.DisabledOpening, t, q⟩ hs sub)
      = true ∧
    is_enabled (inject_fully_negotiated_outbound ⟨pn, State.DisabledOpening, t, q⟩ hs sub)
      = false :=
  ⟨rfl, rfl, rfl, rfl⟩

/-- C4: Enable maps Disabled to Opening with exactly one outbound
negotiation request for the handler's protocol name and the 10-second
timeout appended; DisabledOpening to Opening and DisabledOpen to Open (same
substream) with nothing enqueued. -/
theorem c4_enable_transitions (pn : Bytes) (t : Nat)
    (q : List ProtocolsHandlerEvent) (sub : NotificationsOutSubstream) :
    (inject_event ⟨pn, State.Disabled, t, q⟩ NotifsOutHandlerIn.Enable =
       ⟨pn, State.Opening, t,
        q ++ [ProtocolsHandlerEvent.OutboundSubstreamRequest ⟨pn, OPEN_TIMEOUT⟩]⟩) ∧
    (inject_event ⟨pn, State.DisabledOpening, t, q⟩ NotifsOutHandlerIn.Enable =
       ⟨pn, State.Opening, t, q⟩) ∧
    (inject_event ⟨pn, State.DisabledOpen sub, t, q⟩ NotifsOutHandlerIn.Enable =
       ⟨pn, State.Open sub, t, q⟩) ∧
    OPEN_TIMEOUT = 10 :=
  ⟨rfl, rfl, rfl, rfl⟩

/-- C5: a negotiation failure or timeout in Opening yields state Refused
with exactly one `Refused` event appended; in DisabledOpening it yields
Disabled with no event. -/
theorem c5_negotiation_failure_transitions (pn : Bytes) (t : Nat)
    (q : List ProtocolsHandlerEvent) :
    (inject_dial_upgrade_error ⟨pn, State.Opening, t, q⟩ =
       ⟨pn, State.Refused, t,
        q ++ [ProtocolsHandlerEvent.Custom NotifsOutHandlerOut.Refused]⟩) ∧
    (inject_dial_upgrade_error ⟨pn, State.DisabledOpening, t, q⟩ =
       ⟨pn, State.Disabled, t, q⟩) :=
  ⟨rfl, rfl⟩

/-- Request counting distributes over list append. -/
theorem reqCount_append (a b : List ProtocolsHandlerEvent) :
    reqCount (a ++ b) = reqCount a + reqCount b := by
  induction a with
  | nil => simp [reqCount]
  | cons e rest ih => simp [reqCount, ih, Nat.add_assoc]

/-- C6: polling with an empty queue in Open leaves everything unchanged and
suspends when the flush succeeds or would block; on a flush failure the
state becomes Opening, a fresh 10-second negotiation request is the sole
queued event, and exactly one `Closed` event is returned.  Moreover this is
the only place outside an Enable command that can create a negotiation
request: the negotiation callbacks, Disable, Send, and every other poll
outcome never increase the number of requests accounted for. -/
theorem c6_flush_failure_sole_reconnect :
    (∀ (pn : Bytes) (t : Nat) (sub : NotificationsOutSubstream),
       poll ⟨pn, State.Open sub, t, []⟩ SinkPoll.Pending =
         (⟨pn, State.Open sub, t, []⟩, Poll.Pending)) ∧
    (∀ (pn : Bytes) (t : Nat) (sub : NotificationsOutSubstream),
       poll ⟨pn, State.Open sub, t, []⟩ SinkPoll.ReadyOk =
         (⟨pn, State.Open sub, t, []⟩, Poll.Pending)) ∧
    (∀ (pn : Bytes) (t : Nat) (sub : NotificationsOutSubstream),
       poll ⟨pn, State.Open sub, t, []⟩ SinkPoll.ReadyErr =
         (⟨pn, State.Opening, t,
           [ProtocolsHandlerEvent.OutboundSubstreamRequest ⟨pn, OPEN_TIMEOUT⟩]⟩,
          Poll.Ready (ProtocolsHandlerEvent.Custom NotifsOutHandlerOut.Closed))) ∧
    (∀ (h : NotifsOutHandler) (hs : Bytes) (sub : NotificationsOutSubstream),
       reqCount (inject_fully_negotiated_outbound h hs sub).events_queue =
         reqCount h.events_queue) ∧
    (∀ h : NotifsOutHandler,
       reqCount (inject_dial_upgrade_error h).events_queue = reqCount h.events_queue) ∧
    (∀ h : NotifsOutHandler,
       reqCount (inject_event h NotifsOutHandlerIn.Disable).events_queue =
         reqCount h.events_queue) ∧
    (∀ (h : NotifsOutHandler) (m : Bytes),
       reqCount (inject_event h (NotifsOutHandlerIn.Send m)).events_queue =
         reqCount h.events_queue) ∧
    (∀ (h : NotifsOutHandler) (cx : SinkPoll),
       pollReqTotal h cx = reqCount h.events_queue ∨
         (h.events_queue = [] ∧ cx = SinkPoll.ReadyErr ∧
          (∃ s, h.state = State.Open s) ∧
          pollReqTotal h cx = reqCount h.events_queue + 1)) := by
  refine ⟨?_, ?_, ?_, ?_, ?_, ?_, ?_, ?_⟩
  · intro pn t sub
    rfl
  · intro pn t sub
    rfl
  · intro pn t sub
    rfl
  · intro h hs sub
    obtain ⟨pn, st, t, q⟩ := h
    cases st <;>
      simp [inject_fully_negotiated_outbound, reqCount_append, reqCount, isRequest]
  · intro h
    obtain ⟨pn, st, t, q⟩ := h
    cases st <;>
      simp [inject_dial_upgrade_error, reqCount_append, reqCount, isRequest]
  · intro h
    obtain ⟨pn, st, t, q⟩ := h
    cases st <;> simp [inject_event]
  · intro h m
    obtain ⟨pn, st, t, q⟩ := h
    cases st <;> simp [inject_event]
  · intro h cx
    obtain ⟨pn, st, t, q⟩ := h
    cases q with
    | cons e rest =>
        left
        cases e with
        | OutboundSubstreamRequest p =>
            simp [pollReqTotal, poll, deliveredReq, reqCount, isRequest]
            omega
        | Custom ev =>
            simp [pollReqTotal, poll, deliveredReq, reqCount, isRequest]
    | nil =>
        cases st <;> cases cx <;>
          first
          | (left
             simp [pollReqTotal, poll, deliveredReq, reqCount, isRequest]
             done)
          | (right
             exact ⟨rfl, rfl, ⟨_, rfl⟩, by
               simp [pollReqTotal, poll, deliveredReq, reqCount, isRequest]⟩)

/-- C7: polling with an empty queue in DisabledOpen leaves everything
unchanged and suspends while the close is still in progress; when the close
completes — with success or with an error, indistinguishably — the state
becomes Disabled and exactly one `Closed` event is returned. -/
theorem c7_disabledOpen_close_transitions (pn : Bytes) (t : Nat)
    (sub : NotificationsOutSubstream) :
    (poll ⟨pn, State.DisabledOpen sub, t, []⟩ SinkPoll.Pending =
       (⟨pn, State.DisabledOpen sub, t, []⟩, Poll.Pending)) ∧
    (poll ⟨pn, State.DisabledOpen sub, t, []⟩ SinkPoll.ReadyOk =
       (⟨pn, State.Disabled, t, []⟩,
        Poll.Ready (ProtocolsHandlerEvent.Custom NotifsOutHandlerOut.Closed))) ∧
    (poll ⟨pn, State.DisabledOpen sub, t, []⟩ SinkPoll.ReadyErr =
       (⟨pn, State.Disabled, t, []⟩,
        Poll.Ready (ProtocolsHandlerEvent.Custom NotifsOutHandlerOut.Closed))) :=
  ⟨rfl, rfl, rfl⟩

/-- C8: the keep-alive hint depends only on the state and the
connection-open instant (the queue and protocol name are arbitrary here):
indefinite in Opening and Open, bounded by the connection-open instant plus
the 5-second grace in Disabled, DisabledOpen and DisabledOpening, and no
obligation in Refused and Poisoned. -/
theorem c8_keep_alive_policy (pn : Bytes) (t : Nat)
    (q : List ProtocolsHandlerEvent) (sub sub2 : NotificationsOutSubstream) :
    connection_keep_alive ⟨pn, State.Opening, t, q⟩ = KeepAlive.Yes ∧
    connection_keep_alive ⟨pn, State.Open sub, t, q⟩ = KeepAlive.Yes ∧
    connection_keep_alive ⟨pn, State.Disabled, t, q⟩ =
      KeepAlive.Until (t + INITIAL_KEEPALIVE_TIME) ∧
    connection_keep_alive ⟨pn, State.DisabledOpen sub2, t, q⟩ =
      KeepAlive.Until (t + INITIAL_KEEPALIVE_TIME) ∧
    connection_keep_alive ⟨pn, State.DisabledOpening, t, q⟩ =
      KeepAlive.Until (t + INITIAL_KEEPALIVE_TIME) ∧
    connection_keep_alive ⟨pn, State.Refused, t, q⟩ = KeepAlive.No ∧
    connection_keep_alive ⟨pn, State.Poisoned, t, q⟩ = KeepAlive.No ∧
    INITIAL_KEEPALIVE_TIME = 5 :=
  ⟨rfl, rfl, rfl, rfl, rfl, rfl, rfl, rfl⟩

/-- C9: a poll call returns at most one event by construction (its result
type holds a single optional event); whenever the queue is non-empty, poll
pops and returns exactly the head before any liveness work, whatever the
state and the sink oracle; consequently draining a handler by repeated
polling yields the queued events in exact FIFO order (here with the sink
idle, so that no liveness event interleaves). -/
theorem c9_event_queue_fifo :
    (∀ (pn : Bytes) (st : State) (t : Nat) (e : ProtocolsHandlerEvent)
       (rest : List ProtocolsHandlerEvent) (cx : SinkPoll),
       poll ⟨pn, st, t, e :: rest⟩ cx = (⟨pn, st, t, rest⟩, Poll.Ready e)) ∧
    (∀ (k : Nat) (h : NotifsOutHandler),
       pollList SinkPoll.Pending k h = h.events_queue.take k) := by
  constructor
  · intro pn st t e rest cx
    rfl
  · intro k
    induction k with
    | zero =>
        intro h
        simp [pollList]
    | succ n ih =>
        intro h
        obtain ⟨pn, st, t, q⟩ := h
        cases q with
        | nil => cases st <;> simp [pollList, poll]
        | cons e rest => simp [pollList, poll, ih]

/-- C10: a handler whose state is the Poisoned marker reports the inactive
side of both introspection functions: `is_enabled` and `is_open` are both
false. -/
theorem c10_poisoned_reports_inactive (pn : Bytes) (t : Nat)
    (q : List ProtocolsHandlerEvent) :
    is_enabled ⟨pn, State.Poisoned, t, q⟩ = false ∧
    is_open ⟨pn, State.Poisoned, t, q⟩ = false :=
  ⟨rfl, rfl⟩

end NotifOut
